import Mathlib

/-!
Shallow embedding of the authentication/session subsystem of the
contacts-management backend (src/services/auth.py, src/api/auth.py,
src/services/users.py, src/repository/users.py, src/conf/config.py,
src/database/models.py).

Conventions of the embedding:
* Time is a `Nat` of UNIX seconds, passed explicitly to every function that
  reads the clock (`datetime.now(UTC)`).
* A JWT string is modelled by `TokenStr`: `signed p` stands for the unique
  string whose payload is `p`, signed with the process-wide secret
  (`jose.jwt.encode` with HS256 is deterministic, so payload equality is
  string equality); `malformed s` stands for any string that fails signature
  verification or parsing.
* A stored password hash (a string column) is modelled by `StoredHash`:
  `bcrypt salt pw` stands for the bcrypt hash of `pw` under `salt`, and
  `malformed s` for any string that passlib cannot identify as a bcrypt hash
  (on which `CryptContext.verify` raises instead of returning a Bool).
* The async database session is modelled by explicit state passing of the
  user table (`DB`), and the Redis client by `Cache`; each endpoint returns
  its updated state next to its HTTP outcome.
* Python exceptions escaping a function are the `Except.error` case of
  `PyError`; `PyError.http` is FastAPI's `HTTPException` with its status
  code, detail string, and whether the `WWW-Authenticate: Bearer` header was
  attached.
-/

namespace ContactsApp

/-- Fields of `src/conf/config.py` `Settings` consumed by the auth core,
with their defaults. -/
structure Settings where
  JWT_EXPIRATION_SECONDS : Nat := 3600
  JWT_REFRESH_EXPIRATION_SECONDS : Nat := 60 * 24 * 7
  REDIS_TTL : Nat := 3600
deriving DecidableEq, Repr

/-- Enum `UserRole` of src/database/models.py. -/
inductive UserRole
  | USER
  | ADMIN
deriving DecidableEq, Repr

/-- Value string of the Python enum member (its `.value`). -/
def UserRole.value : UserRole → String
  | .USER => "USER"
  | .ADMIN => "ADMIN"

/-- Lookup `UserRole(s)` by value; Python raises `ValueError` on an unknown
value, modelled as `none` (unreachable from values this code writes). -/
def UserRole.fromValue : String → Option UserRole
  | "USER" => some .USER
  | "ADMIN" => some .ADMIN
  | _ => none

/-- Claim set of a JWT issued by this application: `sub`, `exp`,
`token_type` and `iat` when present. -/
structure Payload where
  sub : Option String
  exp : Nat
  token_type : Option String
  iat : Option Nat := none
deriving DecidableEq, Repr

/-- A candidate token string: either the deterministic HS256 encoding of a
payload under the process secret, or a string failing verification. -/
inductive TokenStr
  | signed (p : Payload)
  | malformed (s : String)
deriving DecidableEq, Repr

/-- Embeds `jose.jwt.decode(token, JWT_SECRET, [JWT_ALGORITHM])` at time `now`:
signature check, then `exp` validation (expired iff `exp < now`, zero
leeway). All failures raise `JWTError`, modelled as `none`. -/
def jwtDecode (now : Nat) : TokenStr → Option Payload
  | .signed p => if p.exp < now then none else some p
  | .malformed _ => none

/-- Python exception escaping a request handler. -/
inductive PyError
  | http (statusCode : Nat) (detail : String) (wwwAuthenticate : Bool)
  | keyError
  | valueError (msg : String)
  | unknownHash
deriving DecidableEq, Repr

/-- The `credentials_exception` built in `get_current_user` and
`verify_refresh_token` (src/services/auth.py). -/
def credentials_exception : PyError :=
  .http 401 "Could not validate credentials" true

/-- A stored password hash string: either an identifiable bcrypt hash
(determined by its salt and the hashed password) or a string that passlib
cannot identify as one. -/
inductive StoredHash
  | bcrypt (salt : Nat) (password : String)
  | malformed (s : String)
deriving DecidableEq, Repr

/-- Embeds `CryptContext(schemes=["bcrypt"]).verify`: returns whether the plaintext
matches an identifiable hash, raises (`Except.error`) on a hash it cannot
identify — passlib's documented behaviour, which `Hash.verify_password`
does not catch. -/
def pwd_context_verify (plain : String) : StoredHash → Except PyError Bool
  | .bcrypt _ pw => .ok (pw == plain)
  | .malformed _ => .error .unknownHash

/-- Embeds `CryptContext.hash` with a freshly drawn salt (the salt is the
nondeterminism oracle). -/
def pwd_context_hash (password : String) (salt : Nat) : StoredHash :=
  .bcrypt salt password

namespace Hash

/-- Method `Hash.verify_password` (src/services/auth.py): a direct delegation to
`pwd_context.verify`, no exception handling. -/
def verify_password (plain_password : String) (hashed_password : StoredHash) :
    Except PyError Bool :=
  pwd_context_verify plain_password hashed_password

/-- Method `Hash.get_password_hash` (src/services/auth.py). -/
def get_password_hash (password : String) (salt : Nat) : StoredHash :=
  pwd_context_hash password salt

end Hash

/-- A row of the `users` table (src/database/models.py `User`). -/
structure DBUser where
  id : Nat
  username : String
  email : String
  hashed_password : StoredHash
  refresh_token : Option TokenStr := none
  confirmed : Bool := false
  avatar : Option String := none
  role : UserRole := .USER
deriving DecidableEq, Repr

/-- The user table. -/
abbrev DB := List DBUser

/-- Embeds `UserRepository.get_user_by_username` (src/repository/users.py):
`select(User).filter_by(username=...)`, adding
`.filter_by(refresh_token=...)` when a (truthy) refresh token is given. -/
def get_user_by_username (db : DB) (username : String)
    (refresh_token : Option TokenStr) : Option DBUser :=
  match refresh_token with
  | some rt => db.find? fun u => u.username == username && u.refresh_token == some rt
  | none => db.find? fun u => u.username == username

/-- Embeds `UserRepository.get_user_by_email` (src/repository/users.py). -/
def get_user_by_email (db : DB) (email : String) : Option DBUser :=
  db.find? fun u => u.email == email

/-- Mutating `user.refresh_token` on the fetched row and committing,
keyed by the primary key. -/
def set_refresh_token (db : DB) (uid : Nat) (rt : TokenStr) : DB :=
  db.map fun u => if u.id == uid then { u with refresh_token := some rt } else u

/-- Assignment `user.hashed_password = hashed_password` on the row with primary key
`uid`, as committed by `UserRepository.update_user`. -/
def set_hashed_password (uid : Nat) (h : StoredHash) (u : DBUser) : DBUser :=
  if u.id == uid then { u with hashed_password := h } else u

/-- Embeds `UserService.update_password` (src/services/users.py): look up by email,
raise `ValueError("User not found")` if absent, else set the hash and
commit. -/
def update_password (db : DB) (email : String) (h : StoredHash) :
    Except PyError DB :=
  match get_user_by_email db email with
  | none => .error (.valueError "User not found")
  | some user => .ok (db.map (set_hashed_password user.id h))

/-- Embeds `create_token` (src/services/auth.py): copies the data (here just
`sub`), sets `exp = now + expires_delta` and `token_type`, and signs. -/
def create_token (sub : String) (token_type : String) (now expires_delta : Nat) :
    TokenStr :=
  .signed { sub := some sub, exp := now + expires_delta, token_type := some token_type }

/-- Embeds `create_access_token` with the default expiry from settings. -/
def create_access_token (st : Settings) (sub : String) (now : Nat) : TokenStr :=
  create_token sub "access" now st.JWT_EXPIRATION_SECONDS

/-- Embeds `create_refresh_token` with the default expiry from settings. -/
def create_refresh_token (st : Settings) (sub : String) (now : Nat) : TokenStr :=
  create_token sub "refresh" now st.JWT_REFRESH_EXPIRATION_SECONDS

/-- Embeds `create_email_token` (src/services/auth.py): `sub` + `iat` + a 7-day
`exp`, no `token_type` claim. -/
def create_email_token (sub : String) (now : Nat) : TokenStr :=
  .signed { sub := some sub, exp := now + 7 * 24 * 3600, token_type := none,
            iat := some now }

/-- Embeds `get_email_from_token` (src/services/auth.py): decode, return
`payload["sub"]`; a `JWTError` becomes HTTP 422, while a missing `sub` key
raises `KeyError` (not caught — only `JWTError` is). -/
def get_email_from_token (now : Nat) (token : TokenStr) : Except PyError String :=
  match jwtDecode now token with
  | some payload =>
    match payload.sub with
    | some email => .ok email
    | none => .error .keyError
  | none => .error (.http 422 "Invalid token for email verification" false)

/-- Embeds `verify_refresh_token` (src/services/auth.py): decode, require a `sub`
and `token_type == "refresh"` (else the 401 `credentials_exception`), then
look the user up by `(username, refresh_token=presented string)`. -/
def verify_refresh_token (now : Nat) (db : DB) (refresh_token : TokenStr) :
    Except PyError (Option DBUser) :=
  match jwtDecode now refresh_token with
  | none => .error credentials_exception
  | some payload =>
    match payload.sub with
    | none => .error credentials_exception
    | some username =>
      if payload.token_type == some "refresh" then
        .ok (get_user_by_username db username (some refresh_token))
      else .error credentials_exception

/-- The JSON dict cached under `user:{username}` by `get_current_user`. -/
structure CachedUser where
  id : Nat
  username : String
  email : String
  avatar : Option String
  role : Option String
deriving DecidableEq, Repr

/-- The Redis keyspace: entries `(key, value, absolute expiry)`; a key is
live while `now < expiry`. -/
abbrev Cache := List (String × CachedUser × Nat)

/-- Embeds `redis_client.get(key)` at time `now`. -/
def redis_get (now : Nat) (cache : Cache) (key : String) : Option CachedUser :=
  match cache.find? fun e => e.1 == key with
  | some (_, v, expiry) => if now < expiry then some v else none
  | none => none

/-- Embeds `redis_client.set(key, value, ex=ttl)` at time `now`: unconditional
overwrite, expiring `ttl` seconds later. -/
def redis_set (now : Nat) (cache : Cache) (key : String) (v : CachedUser)
    (ttl : Nat) : Cache :=
  (key, v, now + ttl) :: cache.filter fun e => e.1 != key

/-- Expression `int(settings.REDIS_TTL or 3600)` in `get_current_user`. -/
def redis_cache_ttl (st : Settings) : Nat :=
  if st.REDIS_TTL == 0 then 3600 else st.REDIS_TTL

/-- The `user_data` dict serialized into the cache (`role` via `.value`;
the `users.role` column is non-nullable, default `USER`). -/
def user_cache_json (u : DBUser) : CachedUser :=
  { id := u.id, username := u.username, email := u.email, avatar := u.avatar,
    role := some u.role.value }

/-- The identity fields carried by the `User` object `get_current_user`
returns (the cache-hit branch constructs the object from exactly these
five fields; callers consume only these). -/
structure AuthUser where
  id : Nat
  username : String
  email : String
  avatar : Option String
  role : Option UserRole
deriving DecidableEq, Repr

/-- The `User(...)` constructed from the cached JSON on a cache hit. -/
def userOfCached (c : CachedUser) : AuthUser :=
  { id := c.id, username := c.username, email := c.email, avatar := c.avatar,
    role := match c.role with
      | some s => UserRole.fromValue s
      | none => none }

/-- Identity projection of a database row, as returned on a cache miss. -/
def DBUser.toAuthUser (u : DBUser) : AuthUser :=
  { id := u.id, username := u.username, email := u.email, avatar := u.avatar,
    role := some u.role }

/-- Embeds `get_current_user` (src/services/auth.py): decode the bearer token,
require `sub` and `token_type == "access"`, then cache-aside resolution:
Redis hit returns the cached snapshot unchanged; miss queries the user
table (401 if absent), caches the snapshot with `REDIS_TTL`, and returns
the row's identity. The pair's second component is the cache state after
the call; the database is never written. -/
def get_current_user (st : Settings) (now : Nat) (token : TokenStr) (db : DB)
    (cache : Cache) : Except PyError AuthUser × Cache :=
  match jwtDecode now token with
  | none => (.error credentials_exception, cache)
  | some payload =>
    match payload.sub with
    | none => (.error credentials_exception, cache)
    | some username =>
      if payload.token_type == some "access" then
        match redis_get now cache ("user:" ++ username) with
        | some cached => (.ok (userOfCached cached), cache)
        | none =>
          match get_user_by_username db username none with
          | none => (.error credentials_exception, cache)
          | some user =>
            (.ok user.toAuthUser,
             redis_set now cache ("user:" ++ username) (user_cache_json user)
               (redis_cache_ttl st))
      else (.error credentials_exception, cache)

/-- The `schemas.Token` response body of the login and refresh routes. -/
structure TokenPair where
  access_token : TokenStr
  refresh_token : TokenStr
  token_type : String
deriving DecidableEq, Repr

/-- Embeds `login_user` (src/api/auth.py `POST /auth/login`): username lookup and
password check collapse to one 401; unconfirmed email is its own 401 (no
`WWW-Authenticate` header); success issues both tokens and commits the new
refresh token onto the row. The second component is the user table after
the call. -/
def login_user (st : Settings) (now : Nat) (username password : String)
    (db : DB) : Except PyError TokenPair × DB :=
  match get_user_by_username db username none with
  | none => (.error (.http 401 "Invalid username or password." true), db)
  | some user =>
    match Hash.verify_password password user.hashed_password with
    | .error e => (.error e, db)
    | .ok false => (.error (.http 401 "Invalid username or password." true), db)
    | .ok true =>
      if !user.confirmed then
        (.error (.http 401 "Email not confirmed. Please confirm your email first." false), db)
      else
        let access_token := create_access_token st user.username now
        let refresh_token := create_refresh_token st user.username now
        (.ok { access_token := access_token, refresh_token := refresh_token,
               token_type := "bearer" },
         set_refresh_token db user.id refresh_token)

/-- Embeds `new_token` (src/api/auth.py `POST /auth/refresh-token`): verify the
presented refresh token, 401 when no user matches, else issue a fresh pair
and commit the rotated refresh token. -/
def new_token (st : Settings) (now : Nat) (refresh_token : TokenStr)
    (db : DB) : Except PyError TokenPair × DB :=
  match verify_refresh_token now db refresh_token with
  | .error e => (.error e, db)
  | .ok none => (.error (.http 401 "Could not validate credentials" false), db)
  | .ok (some user) =>
    let a := create_access_token st user.username now
    let r := create_refresh_token st user.username now
    (.ok { access_token := a, refresh_token := r, token_type := "bearer" },
     set_refresh_token db user.id r)

/-- Alphabet `string.ascii_letters + string.digits`. -/
def ascii_letters_and_digits : List Char :=
  "abcdefghijklmnopqrstuvwxyzABCDEFGHIJKLMNOPQRSTUVWXYZ0123456789".toList

/-- Embeds `''.join(random.choices(population, k=k))`, with `pick` as the
randomness oracle: draw `i` selects `population[pick i % len]`. -/
def random_choices (population : List Char) (k : Nat) (pick : Nat → Nat) :
    String :=
  String.mk ((List.range k).map fun i =>
    population.getD (pick i % population.length) 'a')

/-- Response body of `GET /auth/reset-password`. -/
structure ResetPasswordResponse where
  message : String
  email : String
deriving DecidableEq, Repr

/-- The arguments handed to the `send_new_password_email` background task
(the only place the generated plaintext leaves the handler). -/
structure NewPasswordEmail where
  email : String
  username : String
  new_password : String
deriving DecidableEq, Repr

/-- Outcome of `validate_reset_token`: HTTP response or exception, the user
table after the call, and the scheduled email task if any. -/
structure ResetOutcome where
  response : Except PyError ResetPasswordResponse
  db : DB
  email_task : Option NewPasswordEmail
deriving Repr

/-- Embeds `validate_reset_token` (src/api/auth.py `GET /auth/reset-password`):
`get_email_from_token` under `except Exception` → 400; unknown email → 404;
else draw a fresh 12-character alphanumeric password, hash it, persist it
via `UserService.update_password`, and schedule the plaintext for email
delivery — the HTTP body carries only the fixed message and the email. -/
def validate_reset_token (now : Nat) (token : TokenStr) (db : DB)
    (pick : Nat → Nat) (salt : Nat) : ResetOutcome :=
  match get_email_from_token now token with
  | .error _ =>
    { response := .error (.http 400 "Invalid or expired token." false),
      db := db, email_task := none }
  | .ok email =>
    match get_user_by_email db email with
    | none =>
      { response := .error (.http 404 "User not found." false),
        db := db, email_task := none }
    | some user =>
      let new_password := random_choices ascii_letters_and_digits 12 pick
      let hashed_password := Hash.get_password_hash new_password salt
      match update_password db email hashed_password with
      | .error e => { response := .error e, db := db, email_task := none }
      | .ok db2 =>
        { response := .ok { message := "Token is valid. Proceed with password reset.",
                            email := email },
          db := db2,
          email_task := some { email := email, username := user.username,
                               new_password := new_password } }

/-! ## Helper lemmas -/

theorem jwtDecode_signed {now : Nat} {p : Payload} (h : ¬ p.exp < now) :
    jwtDecode now (.signed p) = some p := by
  simp [jwtDecode, h]

/-- Inversion of a successful refresh-token verification: the presented
string is a validly signed, unexpired refresh-typed token whose subject is
the returned user's username, and that user's stored refresh token is the
presented string itself. -/
theorem verify_refresh_token_ok_some {now : Nat} {db : DB} {rt : TokenStr}
    {user : DBUser} (h : verify_refresh_token now db rt = .ok (some user)) :
    ∃ p, rt = .signed p ∧ ¬ p.exp < now ∧ p.token_type = some "refresh" ∧
      p.sub = some user.username ∧ user ∈ db ∧
      user.refresh_token = some rt ∧
      get_user_by_username db user.username (some rt) = some user := by
  cases rt with
  | malformed s => simp [verify_refresh_token, jwtDecode] at h
  | signed p =>
    by_cases hexp : p.exp < now
    · simp [verify_refresh_token, jwtDecode, hexp] at h
    · simp only [verify_refresh_token, jwtDecode_signed hexp] at h
      cases hs : p.sub with
      | none => simp [hs] at h
      | some username =>
        simp only [hs] at h
        by_cases ht : (p.token_type == some "refresh") = true
        · rw [if_pos ht] at h
          have hfind : get_user_by_username db username (some (.signed p))
              = some user := by
            injection h
          have hpred := List.find?_some hfind
          have hmem := List.mem_of_find?_eq_some hfind
          have hpred2 := List.find?_some hfind
          simp only [Bool.and_eq_true, beq_iff_eq] at hpred2
          refine ⟨p, rfl, hexp, by simpa using ht, ?_, hmem, hpred2.2, ?_⟩
          · rw [hs, hpred2.1]
          · rw [hpred2.1]; exact hfind
        · rw [if_neg ht] at h
          exact absurd h (by simp)

theorem get_email_from_token_signed {now : Nat} {p : Payload} {email : String}
    (hexp : ¬ p.exp < now) (hsub : p.sub = some email) :
    get_email_from_token now (.signed p) = .ok email := by
  rw [get_email_from_token, jwtDecode_signed hexp]
  simp [hsub]

@[simp] theorem set_hashed_password_id (uid : Nat) (h : StoredHash)
    (u : DBUser) : (set_hashed_password uid h u).id = u.id := by
  unfold set_hashed_password; split <;> rfl

@[simp] theorem set_hashed_password_username (uid : Nat) (h : StoredHash)
    (u : DBUser) : (set_hashed_password uid h u).username = u.username := by
  unfold set_hashed_password; split <;> rfl

@[simp] theorem set_hashed_password_email (uid : Nat) (h : StoredHash)
    (u : DBUser) : (set_hashed_password uid h u).email = u.email := by
  unfold set_hashed_password; split <;> rfl

@[simp] theorem set_hashed_password_refresh (uid : Nat) (h : StoredHash)
    (u : DBUser) : (set_hashed_password uid h u).refresh_token = u.refresh_token := by
  unfold set_hashed_password; split <;> rfl

@[simp] theorem set_hashed_password_confirmed (uid : Nat) (h : StoredHash)
    (u : DBUser) : (set_hashed_password uid h u).confirmed = u.confirmed := by
  unfold set_hashed_password; split <;> rfl

@[simp] theorem set_hashed_password_avatar (uid : Nat) (h : StoredHash)
    (u : DBUser) : (set_hashed_password uid h u).avatar = u.avatar := by
  unfold set_hashed_password; split <;> rfl

@[simp] theorem set_hashed_password_role (uid : Nat) (h : StoredHash)
    (u : DBUser) : (set_hashed_password uid h u).role = u.role := by
  unfold set_hashed_password; split <;> rfl

/-- A password update commutes with username lookup: the lookup predicate
reads only fields `set_hashed_password` preserves. -/
theorem get_user_by_username_map_set_hashed (db : DB) (username : String)
    (rt : Option TokenStr) (uid : Nat) (h : StoredHash) :
    get_user_by_username (db.map (set_hashed_password uid h)) username rt
      = (get_user_by_username db username rt).map (set_hashed_password uid h) := by
  cases rt with
  | none => simp [get_user_by_username, List.find?_map, Function.comp_def]
  | some t => simp [get_user_by_username, List.find?_map, Function.comp_def]

/-- A password update commutes with email lookup. -/
theorem get_user_by_email_map_set_hashed (db : DB) (email : String)
    (uid : Nat) (h : StoredHash) :
    get_user_by_email (db.map (set_hashed_password uid h)) email
      = (get_user_by_email db email).map (set_hashed_password uid h) := by
  simp [get_user_by_email, List.find?_map, Function.comp_def]

theorem toList_mk (l : List Char) : (String.mk l).toList = l := rfl

theorem random_choices_length (population : List Char) (k : Nat)
    (pick : Nat → Nat) : (random_choices population k pick).length = k := by
  simp [random_choices, String.length]

theorem random_choices_mem (population : List Char) (k : Nat)
    (pick : Nat → Nat) (hne : population ≠ []) :
    ∀ c ∈ (random_choices population k pick).toList, c ∈ population := by
  intro c hc
  rw [random_choices, toList_mk] at hc
  obtain ⟨i, _, rfl⟩ := List.mem_map.mp hc
  have hpos : 0 < population.length := List.length_pos.mpr hne
  have hlt : pick i % population.length < population.length := Nat.mod_lt _ hpos
  rw [List.getD_eq_getElem _ _ hlt]
  exact List.getElem_mem hlt

/-- Evaluation of a successful password-reset consumption. -/
theorem validate_reset_token_success {now : Nat} {token : TokenStr} {db : DB}
    {email : String} {user : DBUser} (pick : Nat → Nat) (salt : Nat)
    (hdecode : get_email_from_token now token = .ok email)
    (hfound : get_user_by_email db email = some user) :
    validate_reset_token now token db pick salt =
      { response := .ok { message := "Token is valid. Proceed with password reset.",
                          email := email },
        db := db.map (set_hashed_password user.id
                (.bcrypt salt (random_choices ascii_letters_and_digits 12 pick))),
        email_task := some { email := email, username := user.username,
                             new_password :=
                               random_choices ascii_letters_and_digits 12 pick } } := by
  simp only [validate_reset_token, hdecode, hfound, update_password,
    Hash.get_password_hash, pwd_context_hash]

/-! ## Claims -/

/-- Claim C1: token type isolation between the access and refresh
verification paths — a validly decoding token with `token_type = "refresh"`
is rejected by `get_current_user` (which demands `"access"`) with the 401
`credentials_exception`, and a validly decoding token with
`token_type = "access"` is rejected by `verify_refresh_token` (which
demands `"refresh"`) with the same 401. -/
theorem C1_token_type_isolation (st : Settings) (now : Nat) (pR pA : Payload)
    (db : DB) (cache : Cache)
    (hR : ¬ pR.exp < now) (hRt : pR.token_type = some "refresh")
    (hA : ¬ pA.exp < now) (hAt : pA.token_type = some "access") :
    (get_current_user st now (.signed pR) db cache).1 = .error credentials_exception ∧
    verify_refresh_token now db (.signed pA) = .error credentials_exception := by
  constructor
  · rw [get_current_user, jwtDecode_signed hR]
    cases hs : pR.sub with
    | none => simp [hs]
    | some u => simp [hs, hRt]
  · rw [verify_refresh_token, jwtDecode_signed hA]
    cases hs : pA.sub with
    | none => simp [hs]
    | some u => simp [hs, hAt]

/-- Witness for C1 at concrete refresh and access tokens. -/
theorem C1_token_type_isolation_witness :
    (get_current_user {} 5
        (.signed { sub := some "alice", exp := 100, token_type := some "refresh" })
        [] []).1 = .error credentials_exception ∧
    verify_refresh_token 5 []
        (.signed { sub := some "alice", exp := 100, token_type := some "access" })
      = .error credentials_exception :=
  C1_token_type_isolation {} 5
    { sub := some "alice", exp := 100, token_type := some "refresh" }
    { sub := some "alice", exp := 100, token_type := some "access" }
    [] [] (by decide) rfl (by decide) rfl

/-- Claim C2 counterexample: JWT issuance is deterministic and `exp` has
one-second granularity, so a refresh performed in the same second in which
the presented refresh token was issued re-issues a byte-identical token —
`refresh(R1)` succeeds "producing" `R2 = R1`, the rotation overwrite is a
no-op, and a second `refresh(R1)` succeeds instead of failing with
Unauthorized. -/
theorem C2_counterexample :
    (new_token {} 0 (create_refresh_token {} "alice" 0)
        [{ id := 1, username := "alice", email := "alice@x.com",
           hashed_password := .bcrypt 0 "secret",
           refresh_token := some (create_refresh_token {} "alice" 0),
           confirmed := true }]).1
      = .ok { access_token := create_access_token {} "alice" 0,
              refresh_token := create_refresh_token {} "alice" 0,
              token_type := "bearer" } ∧
    ((new_token {} 0 (create_refresh_token {} "alice" 0)
        (new_token {} 0 (create_refresh_token {} "alice" 0)
          [{ id := 1, username := "alice", email := "alice@x.com",
             hashed_password := .bcrypt 0 "secret",
             refresh_token := some (create_refresh_token {} "alice" 0),
             confirmed := true }]).2).1).isOk = true :=
  ⟨rfl, rfl⟩

/-- Claim C2 (amended): the schema stores at most one refresh token per
user (a single nullable column) and a successful refresh overwrites it with
the newly issued token; provided the rotation issued a token different from
the presented `R1` (which holds exactly when the new token's expiry second
differs from R1's, i.e. the two issuances happened in different seconds),
a second `refresh(R1)` against the rotated table fails with 401
Unauthorized even though R1 is still unexpired, because the refresh flow
requires the presented string to equal the currently stored
`refresh_token`. -/
theorem C2_refresh_rotation (st : Settings) (now1 now2 : Nat) (R1 : TokenStr)
    (db db1 : DB) (resp : TokenPair) (p1 : Payload)
    (h1 : new_token st now1 R1 db = (.ok resp, db1))
    (hne : resp.refresh_token ≠ R1)
    (hids : (db.map DBUser.id).Nodup)
    (husers : (db.map DBUser.username).Nodup)
    (hp1 : R1 = .signed p1) (hexp2 : ¬ p1.exp < now2) :
    (new_token st now2 R1 db1).1
      = .error (.http 401 "Could not validate credentials" false) := by
  rw [new_token] at h1
  cases hv : verify_refresh_token now1 db R1 with
  | error e => simp [hv] at h1
  | ok o =>
    cases o with
    | none => simp [hv] at h1
    | some user =>
      simp only [hv, Prod.mk.injEq, Except.ok.injEq] at h1
      obtain ⟨hresp, hdb1⟩ := h1
      obtain ⟨p, hpe, hexp1, htt, hsub, hmem, hrt, hfind⟩ := verify_refresh_token_ok_some hv
      rw [hp1] at hpe
      injection hpe with hpp
      subst hpp
      have hrefresh : resp.refresh_token = create_refresh_token st user.username now1 := by
        rw [← hresp]
      have hner : create_refresh_token st user.username now1 ≠ R1 := by
        rw [← hrefresh]; exact hne
      have hnone : get_user_by_username db1 user.username (some R1) = none := by
        rw [← hdb1]
        simp only [set_refresh_token, get_user_by_username]
        rw [List.find?_eq_none]
        intro v hvmem
        obtain ⟨u, hu, rfl⟩ := List.mem_map.mp hvmem
        by_cases hid : (u.id == user.id) = true
        · have huu : u = user :=
            List.inj_on_of_nodup_map hids hu hmem (by simpa using hid)
          subst huu
          simp [hid, hner]
        · rw [if_neg hid]
          intro habs
          simp only [Bool.and_eq_true, beq_iff_eq] at habs
          have huu : u = user := List.inj_on_of_nodup_map husers hu hmem habs.1
          rw [huu] at hid
          simp at hid
      have hv2 : verify_refresh_token now2 db1 R1 = .ok none := by
        rw [hp1] at hnone ⊢
        simp only [verify_refresh_token, jwtDecode_signed hexp2, hsub]
        rw [if_pos (by simp [htt])]
        rw [hnone]
      rw [new_token]
      simp [hv2]

/-- Witness for the amended C2: a concrete login-issued refresh token is
rotated out at a later second and its reuse is rejected with 401. -/
theorem C2_refresh_rotation_witness :
    (new_token {} 20
      (.signed { sub := some "alice", exp := 50, token_type := some "refresh" })
      [{ id := 1, username := "alice", email := "alice@x.com",
         hashed_password := .bcrypt 0 "secret",
         refresh_token := some (.signed { sub := some "alice", exp := 10090,
                                          token_type := some "refresh" }),
         confirmed := true }]).1
      = .error (.http 401 "Could not validate credentials" false) :=
  C2_refresh_rotation {} 10 20
    (.signed { sub := some "alice", exp := 50, token_type := some "refresh" })
    [{ id := 1, username := "alice", email := "alice@x.com",
       hashed_password := .bcrypt 0 "secret",
       refresh_token := some (.signed { sub := some "alice", exp := 50,
                                        token_type := some "refresh" }),
       confirmed := true }]
    [{ id := 1, username := "alice", email := "alice@x.com",
       hashed_password := .bcrypt 0 "secret",
       refresh_token := some (.signed { sub := some "alice", exp := 10090,
                                        token_type := some "refresh" }),
       confirmed := true }]
    { access_token := .signed { sub := some "alice", exp := 3610,
                                token_type := some "access" },
      refresh_token := .signed { sub := some "alice", exp := 10090,
                                 token_type := some "refresh" },
      token_type := "bearer" }
    { sub := some "alice", exp := 50, token_type := some "refresh" }
    rfl (by decide) (by decide) (by decide) rfl (by decide)

/-- Claim C3 counterexample: the email-action decode path does accept a
token issued as an access token — `get_email_from_token` on the access
token for `"alice"` succeeds and returns `"alice"`, because it never reads
the `token_type` claim. -/
theorem C3_counterexample :
    get_email_from_token 0 (create_access_token {} "alice" 0) = .ok "alice" := rfl

/-- Claim C3 (amended): the access and refresh verifiers each check the
embedded `token_type` explicitly and reject any other type with the 401
`credentials_exception`; but the email-action decode path performs no type
check at all — it accepts every validly signed, unexpired token carrying a
`sub` claim, whatever its `token_type` (email tokens themselves carry
none). -/
theorem C3_amended_type_discrimination (st : Settings) (now : Nat)
    (p : Payload) (db : DB) (cache : Cache) (e : String)
    (hexp : ¬ p.exp < now) (hsub : p.sub = some e) :
    (p.token_type ≠ some "access" →
      (get_current_user st now (.signed p) db cache).1 = .error credentials_exception) ∧
    (p.token_type ≠ some "refresh" →
      verify_refresh_token now db (.signed p) = .error credentials_exception) ∧
    get_email_from_token now (.signed p) = .ok e := by
  refine ⟨fun hna => ?_, fun hnr => ?_, ?_⟩
  · rw [get_current_user, jwtDecode_signed hexp]
    simp [hsub, hna]
  · rw [verify_refresh_token, jwtDecode_signed hexp]
    simp [hsub, hnr]
  · rw [get_email_from_token, jwtDecode_signed hexp]
    simp [hsub]

/-- Witness for the amended C3 at a concrete refresh token: rejected by the
access path, accepted (with its subject returned) by the email path. -/
theorem C3_amended_witness :
    (get_current_user {} 5
        (.signed { sub := some "bob@x.com", exp := 100, token_type := some "refresh" })
        [] []).1 = .error credentials_exception ∧
    get_email_from_token 5
        (.signed { sub := some "bob@x.com", exp := 100, token_type := some "refresh" })
      = .ok "bob@x.com" := by
  have h := C3_amended_type_discrimination {} 5
    { sub := some "bob@x.com", exp := 100, token_type := some "refresh" }
    [] [] "bob@x.com" (by decide) rfl
  exact ⟨h.1 (by decide), h.2.2⟩

/-- Claim C4: credential-oracle resistance of login — a nonexistent
username and an existing username with a wrong password produce the
identical failure: status 401, detail "Invalid username or password.",
`WWW-Authenticate: Bearer` attached, and in both cases the user table is
returned untouched. -/
theorem C4_credential_oracle_resistance (st st' : Settings) (now now' : Nat)
    (db : DB) (u1 p1 u2 p2 : String) (user : DBUser)
    (h1 : get_user_by_username db u1 none = none)
    (h2 : get_user_by_username db u2 none = some user)
    (h3 : Hash.verify_password p2 user.hashed_password = .ok false) :
    login_user st now u1 p1 db
      = (.error (.http 401 "Invalid username or password." true), db) ∧
    login_user st' now' u2 p2 db
      = (.error (.http 401 "Invalid username or password." true), db) := by
  constructor
  · simp only [login_user, h1]
  · simp only [login_user, h2, h3]

/-- Witness for C4: `login("nouser","x")` versus `login("bob","wrongpass")`
against a table holding only `bob` (hash of `"rightpass"`). -/
theorem C4_credential_oracle_resistance_witness :
    login_user {} 0 "nouser" "x"
        [{ id := 1, username := "bob", email := "b@x.com",
           hashed_password := .bcrypt 7 "rightpass", confirmed := true }]
      = (.error (.http 401 "Invalid username or password." true),
         [{ id := 1, username := "bob", email := "b@x.com",
            hashed_password := .bcrypt 7 "rightpass", confirmed := true }]) ∧
    login_user {} 0 "bob" "wrongpass"
        [{ id := 1, username := "bob", email := "b@x.com",
           hashed_password := .bcrypt 7 "rightpass", confirmed := true }]
      = (.error (.http 401 "Invalid username or password." true),
         [{ id := 1, username := "bob", email := "b@x.com",
            hashed_password := .bcrypt 7 "rightpass", confirmed := true }]) :=
  C4_credential_oracle_resistance {} {} 0 0
    [{ id := 1, username := "bob", email := "b@x.com",
       hashed_password := .bcrypt 7 "rightpass", confirmed := true }]
    "nouser" "x" "bob" "wrongpass"
    { id := 1, username := "bob", email := "b@x.com",
      hashed_password := .bcrypt 7 "rightpass", confirmed := true }
    (by decide) (by decide) rfl

/-- Claim C5 counterexample: on a malformed stored hash
`Hash.verify_password` does not return a boolean — it propagates passlib's
exception — and at the login boundary that exception escapes `login_user`
as something other than the 401 Unauthorized a false result produces. -/
theorem C5_counterexample :
    Hash.verify_password "pw" (.malformed "") = .error .unknownHash ∧
    (login_user {} 0 "mallory" "pw"
        [{ id := 1, username := "mallory", email := "m@x.com",
           hashed_password := .malformed "", confirmed := true }]).1
      = .error .unknownHash ∧
    PyError.unknownHash ≠ .http 401 "Invalid username or password." true :=
  ⟨rfl, rfl, by decide⟩

/-- Claim C5 (amended): on an identifiable bcrypt stored hash
`Hash.verify_password` returns a boolean (true exactly on match), but on a
malformed stored hash it raises instead of returning false, and
`login_user` — which wraps the verification in no exception handler —
propagates that exception instead of mapping it to the Unauthorized that a
false verification yields. -/
theorem C5_verification_totality (st : Settings) (now : Nat) (db : DB)
    (username plain pw : String) (salt : Nat) (s : String) (user : DBUser)
    (hfound : get_user_by_username db username none = some user)
    (hmal : user.hashed_password = .malformed s) :
    Hash.verify_password plain (.bcrypt salt pw) = .ok (pw == plain) ∧
    Hash.verify_password plain (.malformed s) = .error .unknownHash ∧
    (login_user st now username plain db).1 = .error .unknownHash := by
  refine ⟨rfl, rfl, ?_⟩
  simp only [login_user, hfound, Hash.verify_password, hmal, pwd_context_verify]

/-- Witness for the amended C5 at a concrete malformed hash. -/
theorem C5_verification_totality_witness :
    Hash.verify_password "pw" (.bcrypt 3 "other") = .ok ("other" == "pw") ∧
    Hash.verify_password "pw" (.malformed "not-a-hash") = .error .unknownHash ∧
    (login_user {} 0 "mallory" "pw"
        [{ id := 1, username := "mallory", email := "m@x.com",
           hashed_password := .malformed "not-a-hash", confirmed := true }]).1
      = .error .unknownHash :=
  C5_verification_totality {} 0
    [{ id := 1, username := "mallory", email := "m@x.com",
       hashed_password := .malformed "not-a-hash", confirmed := true }]
    "mallory" "pw" "other" 3 "not-a-hash"
    { id := 1, username := "mallory", email := "m@x.com",
      hashed_password := .malformed "not-a-hash", confirmed := true }
    (by decide) rfl

/-- Claim C7: the unconfirmed-email login gate — matching credentials with
`confirmed = false` yield a 401 whose detail differs from the credential
failure (and carries no `WWW-Authenticate` header), and the user table is
returned untouched, so no refresh token is stored and no tokens issued. -/
theorem C7_unconfirmed_login_gate (st : Settings) (now : Nat) (db : DB)
    (username password : String) (user : DBUser)
    (hfound : get_user_by_username db username none = some user)
    (hverify : Hash.verify_password password user.hashed_password = .ok true)
    (hunconf : user.confirmed = false) :
    login_user st now username password db
      = (.error (.http 401 "Email not confirmed. Please confirm your email first." false), db) ∧
    PyError.http 401 "Email not confirmed. Please confirm your email first." false
      ≠ .http 401 "Invalid username or password." true := by
  refine ⟨?_, by decide⟩
  simp [login_user, hfound, hverify, hunconf]

/-- Witness for C7: correct password, unconfirmed account. -/
theorem C7_unconfirmed_login_gate_witness :
    login_user {} 0 "carol" "pw"
        [{ id := 1, username := "carol", email := "c@x.com",
           hashed_password := .bcrypt 5 "pw", confirmed := false }]
      = (.error (.http 401 "Email not confirmed. Please confirm your email first." false),
         [{ id := 1, username := "carol", email := "c@x.com",
            hashed_password := .bcrypt 5 "pw", confirmed := false }]) ∧
    PyError.http 401 "Email not confirmed. Please confirm your email first." false
      ≠ .http 401 "Invalid username or password." true :=
  C7_unconfirmed_login_gate {} 0
    [{ id := 1, username := "carol", email := "c@x.com",
       hashed_password := .bcrypt 5 "pw", confirmed := false }]
    "carol" "pw"
    { id := 1, username := "carol", email := "c@x.com",
      hashed_password := .bcrypt 5 "pw", confirmed := false }
    (by decide) rfl rfl

/-- Claim C6: cache-aside staleness bound — a cache-miss resolution at time
`now0` returns the row's identity and populates the cache entry for the
username with expiry `now0 + TTL`; every later resolution with a valid
access token for that username before the TTL elapses returns the cached
snapshot with the cache unchanged, and does so for EVERY state of the user
table (the directory is not consulted), so a directory-level role change
made after caching is not reflected until the entry's TTL elapses. -/
theorem C6_cache_staleness (st : Settings) (now0 now1 : Nat)
    (p0 p1 : Payload) (username : String) (db : DB) (cache : Cache)
    (user : DBUser)
    (hexp0 : ¬ p0.exp < now0) (hsub0 : p0.sub = some username)
    (htt0 : p0.token_type = some "access")
    (hmiss : redis_get now0 cache ("user:" ++ username) = none)
    (hfound : get_user_by_username db username none = some user)
    (hexp1 : ¬ p1.exp < now1) (hsub1 : p1.sub = some username)
    (htt1 : p1.token_type = some "access")
    (hwin : now1 < now0 + redis_cache_ttl st) :
    get_current_user st now0 (.signed p0) db cache
      = (.ok user.toAuthUser,
         redis_set now0 cache ("user:" ++ username) (user_cache_json user)
           (redis_cache_ttl st)) ∧
    ∀ db' : DB,
      get_current_user st now1 (.signed p1) db'
          (redis_set now0 cache ("user:" ++ username) (user_cache_json user)
            (redis_cache_ttl st))
        = (.ok (userOfCached (user_cache_json user)),
           redis_set now0 cache ("user:" ++ username) (user_cache_json user)
             (redis_cache_ttl st)) := by
  constructor
  · rw [get_current_user, jwtDecode_signed hexp0]
    simp [hsub0, htt0, hmiss, hfound]
  · intro db'
    have hhit : redis_get now1
        (redis_set now0 cache ("user:" ++ username) (user_cache_json user)
          (redis_cache_ttl st)) ("user:" ++ username)
        = some (user_cache_json user) := by
      simp [redis_get, redis_set, hwin]
    rw [get_current_user, jwtDecode_signed hexp1]
    simp [hsub1, htt1, hhit]

/-- Witness for C6: after caching `alice` with role `USER`, a later lookup
against a table where `alice` was promoted to `ADMIN` still returns the
stale `USER` snapshot. -/
theorem C6_cache_staleness_witness :
    get_current_user {} 10
        (.signed { sub := some "alice", exp := 100, token_type := some "access" })
        [{ id := 1, username := "alice", email := "a@x.com",
           hashed_password := .bcrypt 0 "pw", confirmed := true,
           role := .ADMIN }]
        (redis_set 0 [] ("user:" ++ "alice")
          (user_cache_json
            { id := 1, username := "alice", email := "a@x.com",
              hashed_password := .bcrypt 0 "pw", confirmed := true,
              role := .USER })
          (redis_cache_ttl {}))
      = (.ok (userOfCached (user_cache_json
            { id := 1, username := "alice", email := "a@x.com",
              hashed_password := .bcrypt 0 "pw", confirmed := true,
              role := .USER })),
         redis_set 0 [] ("user:" ++ "alice")
           (user_cache_json
             { id := 1, username := "alice", email := "a@x.com",
               hashed_password := .bcrypt 0 "pw", confirmed := true,
               role := .USER })
           (redis_cache_ttl {})) ∧
    (userOfCached (user_cache_json
        { id := 1, username := "alice", email := "a@x.com",
          hashed_password := .bcrypt 0 "pw", confirmed := true,
          role := .USER })).role = some UserRole.USER :=
  ⟨(C6_cache_staleness {} 0 10
      { sub := some "alice", exp := 100, token_type := some "access" }
      { sub := some "alice", exp := 100, token_type := some "access" }
      "alice" [{ id := 1, username := "alice", email := "a@x.com",
                 hashed_password := .bcrypt 0 "pw", confirmed := true,
                 role := .USER }] []
      { id := 1, username := "alice", email := "a@x.com",
        hashed_password := .bcrypt 0 "pw", confirmed := true,
        role := .USER }
      (by decide) rfl rfl rfl rfl (by decide) rfl rfl (by decide)).2
    [{ id := 1, username := "alice", email := "a@x.com",
       hashed_password := .bcrypt 0 "pw", confirmed := true,
       role := .ADMIN }],
   rfl⟩

/-- Claim C8: password-reset consumption — for a token decoding to the
email of an existing user the handler responds 200 with the fixed message
and the email, generates a password of exactly 12 characters drawn from
ASCII letters and digits, persists its hash on that user's row, hands the
plaintext only to the email collaborator, and the HTTP response is
independent of the drawn password and salt (the plaintext never reaches
the HTTP caller); a token that fails to decode yields 400 and a decoded
email without a user yields 404, both leaving the table untouched. -/
theorem C8_reset_consumption (now : Nat) (token t400 t404 : TokenStr)
    (db : DB) (pick : Nat → Nat) (salt : Nat) (email : String) (user : DBUser)
    (hdecode : get_email_from_token now token = .ok email)
    (hfound : get_user_by_email db email = some user) :
    (validate_reset_token now token db pick salt).response
        = .ok { message := "Token is valid. Proceed with password reset.",
                email := email } ∧
    (random_choices ascii_letters_and_digits 12 pick).length = 12 ∧
    (∀ c ∈ (random_choices ascii_letters_and_digits 12 pick).toList,
        c ∈ ascii_letters_and_digits) ∧
    (validate_reset_token now token db pick salt).email_task
        = some { email := email, username := user.username,
                 new_password := random_choices ascii_letters_and_digits 12 pick } ∧
    (validate_reset_token now token db pick salt).db
        = db.map (set_hashed_password user.id
            (.bcrypt salt (random_choices ascii_letters_and_digits 12 pick))) ∧
    (∀ pick' : Nat → Nat, ∀ salt' : Nat,
        (validate_reset_token now token db pick' salt').response
          = (validate_reset_token now token db pick salt).response) ∧
    ((get_email_from_token now t400).isOk = false →
      validate_reset_token now t400 db pick salt
        = { response := .error (.http 400 "Invalid or expired token." false),
            db := db, email_task := none }) ∧
    (∀ e2 : String, get_email_from_token now t404 = .ok e2 →
      get_user_by_email db e2 = none →
      validate_reset_token now t404 db pick salt
        = { response := .error (.http 404 "User not found." false),
            db := db, email_task := none }) := by
  refine ⟨?_, random_choices_length _ _ _,
    random_choices_mem _ _ _ (by decide), ?_, ?_, ?_, ?_, ?_⟩
  · rw [validate_reset_token_success pick salt hdecode hfound]
  · rw [validate_reset_token_success pick salt hdecode hfound]
  · rw [validate_reset_token_success pick salt hdecode hfound]
  · intro pick' salt'
    rw [validate_reset_token_success pick salt hdecode hfound,
      validate_reset_token_success pick' salt' hdecode hfound]
  · intro hbad
    cases he : get_email_from_token now t400 with
    | ok e => rw [he] at hbad; simp [Except.isOk, Except.toBool] at hbad
    | error err => simp [validate_reset_token, he]
  · intro e2 hdec2 hnone2
    simp [validate_reset_token, hdec2, hnone2]

/-- Witness for C8 at a concrete email-action token and single-user table. -/
theorem C8_reset_consumption_witness :
    (validate_reset_token 5 (create_email_token "dave@x.com" 0)
        [{ id := 1, username := "dave", email := "dave@x.com",
           hashed_password := .bcrypt 2 "old", confirmed := true }]
        (fun i => i) 9).response
      = .ok { message := "Token is valid. Proceed with password reset.",
              email := "dave@x.com" } ∧
    (random_choices ascii_letters_and_digits 12 (fun i => i)).length = 12 ∧
    (validate_reset_token 5 (create_email_token "dave@x.com" 0)
        [{ id := 1, username := "dave", email := "dave@x.com",
           hashed_password := .bcrypt 2 "old", confirmed := true }]
        (fun i => i) 9).email_task
      = some { email := "dave@x.com", username := "dave",
               new_password := random_choices ascii_letters_and_digits 12 (fun i => i) } := by
  have h := C8_reset_consumption 5 (create_email_token "dave@x.com" 0)
    (.malformed "garbage") (create_email_token "ghost@x.com" 0)
    [{ id := 1, username := "dave", email := "dave@x.com",
       hashed_password := .bcrypt 2 "old", confirmed := true }]
    (fun i => i) 9 "dave@x.com"
    { id := 1, username := "dave", email := "dave@x.com",
      hashed_password := .bcrypt 2 "old", confirmed := true }
    rfl (by decide)
  exact ⟨h.1, h.2.1, h.2.2.2.1⟩

/-- Claim C9: frame effect of password-reset consumption — after a
successful reset, every row of the resulting table agrees with the
original row in the same position on every field except possibly
`hashed_password` (in particular `refresh_token`, `confirmed`, `role`,
`email` and `avatar` are unchanged); consequently a refresh token that
verified against the old table still drives a successful refresh, and an
access token that resolved an identity still resolves one. -/
theorem C9_reset_frame (st : Settings) (now nowr : Nat) (token : TokenStr)
    (db : DB) (pick : Nat → Nat) (salt : Nat) (email : String) (user : DBUser)
    (hdecode : get_email_from_token now token = .ok email)
    (hfound : get_user_by_email db email = some user) :
    List.Forall₂ (fun u v : DBUser =>
        v.id = u.id ∧ v.username = u.username ∧ v.email = u.email ∧
        v.refresh_token = u.refresh_token ∧ v.confirmed = u.confirmed ∧
        v.avatar = u.avatar ∧ v.role = u.role)
      db (validate_reset_token now token db pick salt).db ∧
    (∀ rt : TokenStr, ∀ u0 : DBUser,
        verify_refresh_token nowr db rt = .ok (some u0) →
        (new_token st nowr rt
            (validate_reset_token now token db pick salt).db).1.isOk = true) ∧
    (∀ tok : TokenStr, ∀ cache : Cache,
        (get_current_user st nowr tok db cache).1.isOk = true →
        (get_current_user st nowr tok
            (validate_reset_token now token db pick salt).db cache).1.isOk = true) := by
  have hdb2 : (validate_reset_token now token db pick salt).db
      = db.map (set_hashed_password user.id
          (.bcrypt salt (random_choices ascii_letters_and_digits 12 pick))) := by
    rw [validate_reset_token_success pick salt hdecode hfound]
  refine ⟨?_, ?_, ?_⟩
  · rw [hdb2, List.forall₂_map_right_iff, List.forall₂_same]
    intro u hu
    simp
  · intro rt u0 hvr
    obtain ⟨p, rfl, hexp1, htt, hsub, hmem, hrt, hfind⟩ :=
      verify_refresh_token_ok_some hvr
    have hv2 : verify_refresh_token nowr
        ((validate_reset_token now token db pick salt).db) (.signed p)
        = .ok (some (set_hashed_password user.id
            (.bcrypt salt (random_choices ascii_letters_and_digits 12 pick)) u0)) := by
      rw [hdb2, verify_refresh_token, jwtDecode_signed hexp1]
      simp only [hsub]
      rw [if_pos (by simp [htt])]
      rw [get_user_by_username_map_set_hashed, hfind]
      rfl
    rw [new_token]
    simp [hv2, Except.isOk, Except.toBool]
  · intro tok cache hok
    rw [hdb2]
    cases tok with
    | malformed s =>
      simp [get_current_user, jwtDecode, Except.isOk, Except.toBool] at hok
    | signed p =>
      by_cases hexp : p.exp < nowr
      · simp [get_current_user, jwtDecode, hexp, Except.isOk, Except.toBool] at hok
      · simp only [get_current_user, jwtDecode_signed hexp] at hok ⊢
        cases hs : p.sub with
        | none => simp only [hs] at hok; simp [Except.isOk, Except.toBool] at hok
        | some username =>
          simp only [hs] at hok ⊢
          by_cases ht : (p.token_type == some "access") = true
          · rw [if_pos ht] at hok ⊢
            cases hc : redis_get nowr cache ("user:" ++ username) with
            | some cached => simp [hc, Except.isOk, Except.toBool]
            | none =>
              simp only [hc] at hok ⊢
              cases hf : get_user_by_username db username none with
              | none => simp only [hf] at hok; simp [Except.isOk, Except.toBool] at hok
              | some u =>
                rw [get_user_by_username_map_set_hashed, hf]
                simp [Except.isOk, Except.toBool]
          · rw [if_neg ht] at hok
            simp [Except.isOk, Except.toBool] at hok

/-- Witness for C9: concrete reset for `eve`, after which her stored
refresh token still refreshes and her access token still resolves. -/
theorem C9_reset_frame_witness :
    List.Forall₂ (fun u v : ContactsApp.DBUser =>
        v.id = u.id ∧ v.username = u.username ∧ v.email = u.email ∧
        v.refresh_token = u.refresh_token ∧ v.confirmed = u.confirmed ∧
        v.avatar = u.avatar ∧ v.role = u.role)
      [{ id := 1, username := "eve", email := "eve@x.com",
         hashed_password := .bcrypt 1 "old",
         refresh_token := some (.signed { sub := some "eve", exp := 100,
                                          token_type := some "refresh" }),
         confirmed := true }]
      (validate_reset_token 5 (create_email_token "eve@x.com" 0)
        [{ id := 1, username := "eve", email := "eve@x.com",
           hashed_password := .bcrypt 1 "old",
           refresh_token := some (.signed { sub := some "eve", exp := 100,
                                            token_type := some "refresh" }),
           confirmed := true }] (fun i => i) 4).db ∧
    (new_token {} 7
        (.signed { sub := some "eve", exp := 100, token_type := some "refresh" })
        (validate_reset_token 5 (create_email_token "eve@x.com" 0)
          [{ id := 1, username := "eve", email := "eve@x.com",
             hashed_password := .bcrypt 1 "old",
             refresh_token := some (.signed { sub := some "eve", exp := 100,
                                              token_type := some "refresh" }),
             confirmed := true }] (fun i => i) 4).db).1.isOk = true ∧
    (get_current_user {} 7
        (.signed { sub := some "eve", exp := 100, token_type := some "access" })
        (validate_reset_token 5 (create_email_token "eve@x.com" 0)
          [{ id := 1, username := "eve", email := "eve@x.com",
             hashed_password := .bcrypt 1 "old",
             refresh_token := some (.signed { sub := some "eve", exp := 100,
                                              token_type := some "refresh" }),
             confirmed := true }] (fun i => i) 4).db []).1.isOk = true := by
  have h := C9_reset_frame {} 5 7 (create_email_token "eve@x.com" 0)
    [{ id := 1, username := "eve", email := "eve@x.com",
       hashed_password := .bcrypt 1 "old",
       refresh_token := some (.signed { sub := some "eve", exp := 100,
                                        token_type := some "refresh" }),
       confirmed := true }] (fun i => i) 4 "eve@x.com"
    { id := 1, username := "eve", email := "eve@x.com",
      hashed_password := .bcrypt 1 "old",
      refresh_token := some (.signed { sub := some "eve", exp := 100,
                                       token_type := some "refresh" }),
      confirmed := true }
    rfl rfl
  exact ⟨h.1,
    h.2.1 (.signed { sub := some "eve", exp := 100, token_type := some "refresh" })
      { id := 1, username := "eve", email := "eve@x.com",
        hashed_password := .bcrypt 1 "old",
        refresh_token := some (.signed { sub := some "eve", exp := 100,
                                         token_type := some "refresh" }),
        confirmed := true } rfl,
    h.2.2 (.signed { sub := some "eve", exp := 100, token_type := some "access" })
      [] rfl⟩

/-- Claim C10: password-reset tokens are not single-use — nothing records a
prior consumption, so a token that decodes to the email of an existing user
can be consumed again while unexpired: after a successful consumption, a
second call with the same token against the updated table succeeds again,
draws a fresh random password, hands it to the email collaborator, and
persists its hash over the previous one. -/
theorem C10_reset_not_single_use (now1 now2 : Nat) (p : Payload) (db : DB)
    (pick1 pick2 : Nat → Nat) (salt1 salt2 : Nat) (email : String)
    (user : DBUser)
    (hsub : p.sub = some email)
    (hexp1 : ¬ p.exp < now1) (hexp2 : ¬ p.exp < now2)
    (hfound : get_user_by_email db email = some user) :
    (validate_reset_token now1 (.signed p) db pick1 salt1).response.isOk = true ∧
    (validate_reset_token now2 (.signed p)
        (validate_reset_token now1 (.signed p) db pick1 salt1).db pick2 salt2).response
      = .ok { message := "Token is valid. Proceed with password reset.",
              email := email } ∧
    (validate_reset_token now2 (.signed p)
        (validate_reset_token now1 (.signed p) db pick1 salt1).db pick2 salt2).email_task
      = some { email := email, username := user.username,
               new_password := random_choices ascii_letters_and_digits 12 pick2 } ∧
    (validate_reset_token now2 (.signed p)
        (validate_reset_token now1 (.signed p) db pick1 salt1).db pick2 salt2).db
      = ((validate_reset_token now1 (.signed p) db pick1 salt1).db).map
          (set_hashed_password user.id
            (.bcrypt salt2 (random_choices ascii_letters_and_digits 12 pick2))) := by
  have hdec1 := get_email_from_token_signed hexp1 hsub
  have hdec2 := get_email_from_token_signed hexp2 hsub
  have hs1 := validate_reset_token_success pick1 salt1 hdec1 hfound
  have hdb1 : (validate_reset_token now1 (.signed p) db pick1 salt1).db
      = db.map (set_hashed_password user.id
          (.bcrypt salt1 (random_choices ascii_letters_and_digits 12 pick1))) := by
    rw [hs1]
  have hfound2 : get_user_by_email
      ((validate_reset_token now1 (.signed p) db pick1 salt1).db) email
      = some (set_hashed_password user.id
          (.bcrypt salt1 (random_choices ascii_letters_and_digits 12 pick1)) user) := by
    rw [hdb1, get_user_by_email_map_set_hashed, hfound]
    rfl
  have hs2 := validate_reset_token_success pick2 salt2 hdec2 hfound2
  refine ⟨by rw [hs1]; rfl, ?_, ?_, ?_⟩
  · rw [hs2]
  · rw [hs2]; simp
  · rw [hs2]; simp

/-- Witness for C10: the same concrete reset token is consumed twice in a
row, successfully both times. -/
theorem C10_reset_not_single_use_witness :
    (validate_reset_token 1
        (.signed { sub := some "f@x.com", exp := 100, token_type := none })
        [{ id := 1, username := "frank", email := "f@x.com",
           hashed_password := .bcrypt 0 "h", confirmed := true }]
        (fun i => i) 3).response.isOk = true ∧
    (validate_reset_token 2
        (.signed { sub := some "f@x.com", exp := 100, token_type := none })
        (validate_reset_token 1
          (.signed { sub := some "f@x.com", exp := 100, token_type := none })
          [{ id := 1, username := "frank", email := "f@x.com",
             hashed_password := .bcrypt 0 "h", confirmed := true }]
          (fun i => i) 3).db (fun i => i + 1) 8).response
      = .ok { message := "Token is valid. Proceed with password reset.",
              email := "f@x.com" } ∧
    (validate_reset_token 2
        (.signed { sub := some "f@x.com", exp := 100, token_type := none })
        (validate_reset_token 1
          (.signed { sub := some "f@x.com", exp := 100, token_type := none })
          [{ id := 1, username := "frank", email := "f@x.com",
             hashed_password := .bcrypt 0 "h", confirmed := true }]
          (fun i => i) 3).db (fun i => i + 1) 8).email_task
      = some { email := "f@x.com", username := "frank",
               new_password :=
                 random_choices ascii_letters_and_digits 12 (fun i => i + 1) } := by
  have h := C10_reset_not_single_use 1 2
    { sub := some "f@x.com", exp := 100, token_type := none }
    [{ id := 1, username := "frank", email := "f@x.com",
       hashed_password := .bcrypt 0 "h", confirmed := true }]
    (fun i => i) (fun i => i + 1) 3 8 "f@x.com"
    { id := 1, username := "frank", email := "f@x.com",
      hashed_password := .bcrypt 0 "h", confirmed := true }
    rfl (by decide) (by decide) rfl
  exact ⟨h.1, h.2.1, h.2.2.1⟩

end ContactsApp
